import Mathlib

/-!
Verification development for the real-estate query-service layer
(`src/js/supabase-client.js`) and its backend schema
(`src/supabase/migrations/20251215102721_create_real_estate_schema.sql`).

The service functions build filtered requests against a hosted Postgres
backend (Supabase/PostgREST) and map the `{ data, error }` response to a
safe default on error.  We embed:

* a row type for the `properties` table restricted to the columns the
  service layer actually reads or filters on;
* the query semantics each function requests from the backend, as a pure
  function over a list of rows (`.eq` / `.ilike` / `.or` / `.limit`);
* the backend response channel as `Except DbError _`, with an `Option
  DbError` injection point so that every backend failure mode can be
  exercised;
* the JS-side error branch of each function exactly as written
  (`if (error) ... return default; return data`).

The `saved_properties` and `inquiries` tables are embedded far enough to
evaluate their insert/delete constraints (the `UNIQUE(user_id,
property_id)` constraint and the `NOT NULL` columns declared in the
migration).
-/

/-- A backend error as surfaced by the client library: a string `code`
(PostgRESTs `PGRST...` codes or PostgreSQL SQLSTATEs) and a message. -/
structure DbError where
  code : String
  message : String
deriving DecidableEq, Repr

/-- A row of the `properties` table, restricted to the columns that the
query-service functions read or filter on.  (The remaining columns —
address, coordinates, timestamps, etc. — are never inspected by the
service layer and cannot influence its behaviour.) -/
structure Property where
  id : String
  title : String
  description : String
  property_type : String
  listing_type : String
  price : Int
  bedrooms : Int
  city : String
  status : String
  featured : Bool
deriving DecidableEq, Repr

/-- The filter object accepted by `getProperties`.  Each field is
`Option`-valued so that an absent JS field (`undefined`) and a present
falsy field (`""`, `0`, `false`) are distinguishable, as both exist in
JS even though the code treats them alike. -/
structure Filters where
  city : Option String := none
  property_type : Option String := none
  minPrice : Option Int := none
  maxPrice : Option Int := none
  bedrooms : Option Int := none
  listing_type : Option String := none
  featured : Option Bool := none
deriving DecidableEq, Repr

/-- JS truthiness of an optional string: `undefined` and `""` are falsy. -/
def truthyS : Option String → Bool
  | none => false
  | some s => !(s == "")

/-- JS truthiness of an optional number: `undefined` and `0` are falsy. -/
def truthyI : Option Int → Bool
  | none => false
  | some n => !(n == 0)

/-- JS truthiness of an optional boolean: `undefined` and `false` are falsy. -/
def truthyB : Option Bool → Bool
  | none => false
  | some b => b

/-- The payload of an optional string field (only read when truthy). -/
def strVal (o : Option String) : String := o.getD ""

/-- The payload of an optional numeric field (only read when truthy). -/
def intVal (o : Option Int) : Int := o.getD 0

/-- Does `s` start with the pattern `pat` (character lists)? -/
def charsStart : List Char → List Char → Bool
  | _, [] => true
  | [], _ :: _ => false
  | c :: cs, d :: ds => c == d && charsStart cs ds

/-- Does `s` contain `pat` as a contiguous run (character lists)? -/
def charsHave : List Char → List Char → Bool
  | [], pat => pat.isEmpty
  | c :: rest, pat => charsStart (c :: rest) pat || charsHave rest pat

/-- Backend semantics of `.ilike('%pat%')`: case-insensitive substring
containment (for patterns without SQL wildcards, which is how the
service layer always calls it). -/
def containsCI (s pat : String) : Bool :=
  charsHave (s.data.map Char.toLower) (pat.data.map Char.toLower)

/-- The conjunction of the conditional filter constraints that
`getProperties` attaches to its query: each truthy filter field adds one
backend condition (`ilike` for city, `eq` for the type fields and the
featured flag, `gte`/`lte` for the numeric bounds); a falsy field adds
nothing. -/
def matchesFilters (f : Filters) (p : Property) : Bool :=
  (!(truthyS f.city) || containsCI p.city (strVal f.city)) &&
  (!(truthyS f.property_type) || p.property_type == strVal f.property_type) &&
  (!(truthyI f.minPrice) || decide (intVal f.minPrice ≤ p.price)) &&
  (!(truthyI f.maxPrice) || decide (p.price ≤ intVal f.maxPrice)) &&
  (!(truthyI f.bedrooms) || decide (intVal f.bedrooms ≤ p.bedrooms)) &&
  (!(truthyS f.listing_type) || p.listing_type == strVal f.listing_type) &&
  (!(truthyB f.featured) || p.featured)

/-- Rows the backend returns for the `getProperties` request:
`.eq('status','active')`, the conditional filter constraints, then
`.limit(20)`. -/
def getPropertiesRows (f : Filters) (db : List Property) : List Property :=
  (db.filter (fun p => p.status == "active" && matchesFilters f p)).take 20

/-- Rows the backend returns for the `searchProperties` request:
`.eq('status','active')`, the `.or` of three `ilike` conditions on
title, description and city, then `.limit(20)`. -/
def searchPropertiesRows (q : String) (db : List Property) : List Property :=
  (db.filter (fun p => p.status == "active" &&
    (containsCI p.title q || containsCI p.description q || containsCI p.city q))).take 20

/-- Rows the backend returns for the `getFeaturedProperties` request:
`.eq('status','active')`, `.eq('featured', true)`, then `.limit(6)`. -/
def getFeaturedRows (db : List Property) : List Property :=
  (db.filter (fun p => p.status == "active" && p.featured)).take 6

/-- Response of the `getPropertyById` request: `.eq('id', id)` with
`.maybeSingle()`, which yields `none` for zero rows, the row for exactly
one, and the PostgREST error `PGRST116` for more than one. -/
def getPropertyByIdRows (i : String) (db : List Property) :
    Except DbError (Option Property) :=
  match db.filter (fun p => p.id == i) with
  | [] => .ok none
  | [p] => .ok (some p)
  | _ => .error ⟨"PGRST116", "JSON object requested, multiple rows returned"⟩

/-- The backend response channel: an injected error `some e` models any
backend failure (connection failure, policy denial, constraint
violation); `none` means the request succeeded with the given rows. -/
def backendResp (rows : α) (err : Option DbError) : Except DbError α :=
  match err with
  | some e => .error e
  | none => .ok rows

/-- A row of the `saved_properties` table, restricted to the two columns
the service layer writes and the backend constrains (`UNIQUE(user_id,
property_id)` in the migration). -/
structure SavedRow where
  user_id : String
  property_id : String
deriving DecidableEq, Repr

/-- Backend semantics of `insert` into `saved_properties` under the
migration constraint `UNIQUE(user_id, property_id)`: inserting an
already-present pair raises PostgreSQL `unique_violation`, whose
SQLSTATE `23505` the backend client surfaces as the error `code`;
otherwise the row is appended. -/
def insertSaved (tbl : List SavedRow) (r : SavedRow) :
    Except DbError (List SavedRow) :=
  if tbl.any (fun x => x.user_id == r.user_id && x.property_id == r.property_id)
  then .error ⟨"23505", "duplicate key value violates unique constraint"⟩
  else .ok (tbl ++ [r])

/-- Backend semantics of `delete().eq('user_id', u).eq('property_id', p)`
on `saved_properties`: remove every matching row; matching no rows is a
successful no-op, not an error. -/
def deleteSaved (tbl : List SavedRow) (u p : String) : List SavedRow :=
  tbl.filter (fun x => !(x.user_id == u && x.property_id == p))

/-- An insert payload for the `inquiries` table: each column is present
(`some`) or absent (`none`); the migration declares `name`, `email` and
`message` as `NOT NULL`, while `phone` and `property_id` are nullable. -/
structure InquiryRow where
  property_id : Option String := none
  name : Option String := none
  email : Option String := none
  phone : Option String := none
  message : Option String := none
deriving DecidableEq, Repr

/-- Backend semantics of `insert` into `inquiries`: omitting one of the
`NOT NULL` columns of the migration (`name`, `email`, `message`) raises
PostgreSQL `not_null_violation` (SQLSTATE `23502`); otherwise the insert
succeeds. -/
def insertInquiry (r : InquiryRow) : Except DbError Unit :=
  if r.name.isNone || r.email.isNone || r.message.isNone
  then .error ⟨"23502", "null value in column violates not-null constraint"⟩
  else .ok ()

/-- A row of the `getSavedProperties` response: the selected
`property_id` together with the embedded `properties` record joined by
the backend (possibly `null`). -/
structure SavedJoinRow where
  property_id : String
  properties : Option Property
deriving DecidableEq, Repr

namespace propertiesService

/-- `getProperties(filters)`: on `{ error }` log and return `[]`, else
return `data || []`. -/
def getProperties (f : Filters) (db : List Property) (err : Option DbError) :
    List Property :=
  match backendResp (getPropertiesRows f db) err with
  | .error _ => []
  | .ok d => d

/-- `getPropertyById(id)`: on `{ error }` log and return `null`, else
return `data` (which `maybeSingle` made `null` or a single row). -/
def getPropertyById (i : String) (db : List Property) (err : Option DbError) :
    Option Property :=
  match (match err with
         | some e => .error e
         | none => getPropertyByIdRows i db : Except DbError (Option Property)) with
  | .error _ => none
  | .ok d => d

/-- `getFeaturedProperties()`: on `{ error }` log and return `[]`, else
return `data || []`. -/
def getFeaturedProperties (db : List Property) (err : Option DbError) :
    List Property :=
  match backendResp (getFeaturedRows db) err with
  | .error _ => []
  | .ok d => d

/-- `searchProperties(query)`: on `{ error }` log and return `[]`, else
return `data || []`. -/
def searchProperties (q : String) (db : List Property) (err : Option DbError) :
    List Property :=
  match backendResp (searchPropertiesRows q db) err with
  | .error _ => []
  | .ok d => d

/-- `createInquiry(inquiry)`: on `{ error }` log and return `false`,
else return `true`.  The argument is the backend response to the
insert. -/
def createInquiry (resp : Except DbError Unit) : Bool :=
  match resp with
  | .error _ => false
  | .ok _ => true

/-- `createInquiry` composed with the backend insert semantics of the
`inquiries` table. -/
def createInquiryFrom (r : InquiryRow) : Bool :=
  createInquiry (insertInquiry r)

/-- `saveProperty(userId, propertyId)`: on `{ error }`, return `false`
only when `error.code !== 'PGRST116'`; otherwise (no error, or an error
whose code is `PGRST116`) return `true`.  The argument is the backend
response to the insert. -/
def saveProperty (resp : Except DbError Unit) : Bool :=
  match resp with
  | .error e => if e.code != "PGRST116" then false else true
  | .ok _ => true

/-- `saveProperty` composed with the backend insert semantics of the
`saved_properties` table; returns the success flag and the resulting
table contents. -/
def savePropertyFrom (tbl : List SavedRow) (u p : String) :
    Bool × List SavedRow :=
  match insertSaved tbl ⟨u, p⟩ with
  | .error e => (saveProperty (.error e), tbl)
  | .ok t => (saveProperty (.ok ()), t)

/-- `removeSavedProperty(userId, propertyId)`: on `{ error }` log and
return `false`, else return `true`.  `err` is the backend error channel;
on success the backend performs the filtered delete. -/
def removeSavedProperty (tbl : List SavedRow) (u p : String)
    (err : Option DbError) : Bool × List SavedRow :=
  match err with
  | some _ => (false, tbl)
  | none => (true, deleteSaved tbl u p)

/-- `getSavedProperties(userId)`: on `{ error }` log and return `[]`,
else return `data?.map(item => item.properties) || []`.  The argument is
the backend response to the join query. -/
def getSavedProperties (resp : Except DbError (List SavedJoinRow)) :
    List (Option Property) :=
  match resp with
  | .error _ => []
  | .ok d => d.map (fun item => item.properties)

end propertiesService

/-- The rows of `properties` visible to a public SELECT under the
row-level-security policy of the migration, "Anyone can view active
properties" (`USING (status = 'active')`). -/
def rlsPublicRows (db : List Property) : List Property :=
  db.filter (fun p => p.status == "active")

/-- The empty filter object (`getProperties()` with the default `{}`). -/
def emptyFilters : Filters := {}

/-- A filter object whose every field is present but falsy in JS. -/
def falsyFilters : Filters :=
  ⟨some "", some "", some 0, some 0, some 0, some "", some false⟩

/-- A mixed filter object: truthy city and minimum price alongside the
falsy fields `bedrooms: 0` and `featured: false` (the rest absent). -/
def fMixed : Filters :=
  ⟨some "ly", none, some 100, none, some 0, none, some false⟩

/-- Sample row: an active, featured apartment in Paris. -/
def pParis : Property :=
  ⟨"id-1", "Cozy flat", "Nice view", "apartment", "rent", 1200, 2,
   "Paris", "active", true⟩

/-- Sample row: an active, non-featured house in Lyon. -/
def pLyon : Property :=
  ⟨"id-2", "Villa", "Garden home", "house", "sale", 500000, 4,
   "Lyon", "active", false⟩

/-- Sample row: a sold (non-active) house in Rome. -/
def pSoldRome : Property :=
  ⟨"id-3", "Palazzo", "Historic", "house", "sale", 900000, 5,
   "Rome", "sold", false⟩

/-- A sample `properties` table with two active rows and one sold row. -/
def sampleDb : List Property := [pParis, pLyon, pSoldRome]

/-- C1: the claim says a duplicate save returns `true` (idempotent-save
semantics).  On the code this fails: a second `saveProperty` for the
same pair makes the backend raise `unique_violation` for the
`UNIQUE(user_id, property_id)` constraint, surfaced with code `23505`,
while the code only masks the code `PGRST116`; so the first save of the
pair ("user-1", "prop-1") returns `true` but the second returns
`false`. -/
theorem c1_duplicate_save_returns_false :
    (propertiesService.savePropertyFrom [] "user-1" "prop-1").1 = true ∧
    (propertiesService.savePropertyFrom
      (propertiesService.savePropertyFrom [] "user-1" "prop-1").2
      "user-1" "prop-1").1 = false := by
  decide

/-- C2 counterexample: the claim says every boolean operation returns
its safe default `false` on every backend error result, but
`saveProperty` returns `true` on the backend error whose code is
`PGRST116`. -/
theorem c2_counterexample :
    propertiesService.saveProperty
      (Except.error ⟨"PGRST116", "conflict"⟩) ≠ false := by
  decide

/-- C2 (amended): every service operation maps a backend error result to
its safe default — empty collection for `getProperties`,
`getFeaturedProperties`, `searchProperties` and `getSavedProperties`,
`null` for `getPropertyById`, `false` for `createInquiry`,
`removeSavedProperty` and `saveProperty` — except that `saveProperty`
returns `true` for the one backend error whose code is `PGRST116` (the
masked duplicate-conflict code) and `false` for every other error; no
operation propagates an exception (all are total functions of the
response). -/
theorem c2_error_defaults :
    (∀ f db e, propertiesService.getProperties f db (some e) = []) ∧
    (∀ i db e, propertiesService.getPropertyById i db (some e) = none) ∧
    (∀ db e, propertiesService.getFeaturedProperties db (some e) = []) ∧
    (∀ q db e, propertiesService.searchProperties q db (some e) = []) ∧
    (∀ e, propertiesService.createInquiry (.error e) = false) ∧
    (∀ e : DbError, e.code ≠ "PGRST116" →
      propertiesService.saveProperty (.error e) = false) ∧
    (∀ e : DbError, e.code = "PGRST116" →
      propertiesService.saveProperty (.error e) = true) ∧
    (∀ tbl u p e, (propertiesService.removeSavedProperty tbl u p (some e)).1 = false) ∧
    (∀ e, propertiesService.getSavedProperties (.error e) = []) := by
  refine ⟨?_, ?_, ?_, ?_, ?_, ?_, ?_, ?_, ?_⟩
  · intro f db e
    simp [propertiesService.getProperties, backendResp]
  · intro i db e
    simp [propertiesService.getPropertyById]
  · intro db e
    simp [propertiesService.getFeaturedProperties, backendResp]
  · intro q db e
    simp [propertiesService.searchProperties, backendResp]
  · intro e
    simp [propertiesService.createInquiry]
  · intro e h
    simp [propertiesService.saveProperty, h]
  · intro e h
    simp [propertiesService.saveProperty, h]
  · intro tbl u p e
    simp [propertiesService.removeSavedProperty]
  · intro e
    simp [propertiesService.getSavedProperties]

/-- C2 witness: the two hypothesis-bearing conjuncts of
`c2_error_defaults` at concrete errors: the `23505` error makes
`saveProperty` return `false`, the masked `PGRST116` error makes it
return `true`. -/
theorem c2_error_defaults_witness :
    propertiesService.saveProperty (Except.error ⟨"23505", "duplicate"⟩) = false ∧
    propertiesService.saveProperty (Except.error ⟨"PGRST116", "masked"⟩) = true :=
  ⟨c2_error_defaults.2.2.2.2.2.1 ⟨"23505", "duplicate"⟩ (by decide),
   c2_error_defaults.2.2.2.2.2.2.1 ⟨"PGRST116", "masked"⟩ (by decide)⟩

/-- C7: `removeSavedProperty` returns `true` whenever the backend
succeeds — in particular when no row matches the (identity, property)
pair, in which case the filtered delete is a no-op that leaves the table
unchanged — and returns `false` exactly on a backend error. -/
theorem c7_remove_saved (tbl : List SavedRow) (u p : String)
    (hnone : ∀ r ∈ tbl, ¬(r.user_id = u ∧ r.property_id = p)) :
    propertiesService.removeSavedProperty tbl u p none = (true, tbl) ∧
    (∀ tbl2 u2 p2, (propertiesService.removeSavedProperty tbl2 u2 p2 none).1 = true) ∧
    (∀ tbl2 u2 p2 e, (propertiesService.removeSavedProperty tbl2 u2 p2 (some e)).1 = false) := by
  refine ⟨?_, ?_, ?_⟩
  · simp only [propertiesService.removeSavedProperty, deleteSaved, Prod.mk.injEq,
      true_and]
    rw [List.filter_eq_self]
    intro r hr
    have h := hnone r hr
    simp only [Bool.not_eq_eq_eq_not, Bool.not_true, Bool.and_eq_false_imp,
      beq_iff_eq]
    intro h1
    simp only [Bool.not_eq_true', beq_eq_false_iff_ne, ne_eq]
    intro h2
    exact h ⟨h1, h2⟩
  · intro tbl2 u2 p2
    simp [propertiesService.removeSavedProperty]
  · intro tbl2 u2 p2 e
    simp [propertiesService.removeSavedProperty]

/-- C7 witness: removing a pair that is not saved — the table holds only
("u2", "p9") and we remove ("u1", "p1") — returns `true` and leaves the
table unchanged. -/
theorem c7_remove_saved_witness :
    propertiesService.removeSavedProperty [⟨"u2", "p9"⟩] "u1" "p1" none =
      (true, [⟨"u2", "p9"⟩]) :=
  (c7_remove_saved [⟨"u2", "p9"⟩] "u1" "p1" (by decide)).1

/-- C8: `createInquiry` returns `true` when the required `NOT NULL`
columns (name, email, message) are all present together with the
property reference, and returns `false` — without throwing — when the
required `message` column is omitted, because the backend rejects the
insert with a not-null violation. -/
theorem c8_create_inquiry :
    (∀ pid n e ph m, propertiesService.createInquiryFrom
        ⟨some pid, some n, some e, ph, some m⟩ = true) ∧
    (∀ pid n e ph, propertiesService.createInquiryFrom
        ⟨some pid, some n, some e, ph, none⟩ = false) := by
  constructor
  · intro pid n e ph m
    simp [propertiesService.createInquiryFrom, propertiesService.createInquiry,
      insertInquiry]
  · intro pid n e ph
    simp [propertiesService.createInquiryFrom, propertiesService.createInquiry,
      insertInquiry]

/-- C3: for every filter object, free-text query, table contents and
backend outcome, `getProperties` and `searchProperties` return at most
20 rows and `getFeaturedProperties` returns at most 6. -/
theorem c3_limits (f : Filters) (q : String) (db : List Property)
    (err : Option DbError) :
    (propertiesService.getProperties f db err).length ≤ 20 ∧
    (propertiesService.searchProperties q db err).length ≤ 20 ∧
    (propertiesService.getFeaturedProperties db err).length ≤ 6 := by
  refine ⟨?_, ?_, ?_⟩ <;>
    cases err <;>
      simp [propertiesService.getProperties, propertiesService.searchProperties,
        propertiesService.getFeaturedProperties, backendResp,
        getPropertiesRows, searchPropertiesRows, getFeaturedRows]

/-- Membership in a limited filtered query implies membership in the
table together with the filter condition. -/
theorem mem_take_filter {α : Type} {pred : α → Bool} {db : List α} {n : Nat}
    {p : α} (h : p ∈ (db.filter pred).take n) : p ∈ db ∧ pred p = true := by
  have h2 : p ∈ db.filter pred := List.take_subset n (db.filter pred) h
  exact List.mem_filter.mp h2

/-- C4: every row returned by `searchProperties` is active and matches
the OR of the three case-insensitive substring conditions on title,
description and city; conversely an active row whose city alone matches
the query (title and description do not) is still returned, provided the
table is within the 20-row limit. -/
theorem c4_search (q : String) (db : List Property) :
    (∀ err p, p ∈ propertiesService.searchProperties q db err →
      p.status = "active" ∧
      (containsCI p.title q || containsCI p.description q ||
        containsCI p.city q) = true) ∧
    (∀ p, p ∈ db → p.status = "active" → containsCI p.city q = true →
      containsCI p.title q = false → containsCI p.description q = false →
      db.length ≤ 20 → p ∈ propertiesService.searchProperties q db none) := by
  constructor
  · intro err p hmem
    cases err with
    | some e =>
      simp [propertiesService.searchProperties, backendResp] at hmem
    | none =>
      simp only [propertiesService.searchProperties, backendResp] at hmem
      have h := mem_take_filter hmem
      rcases h with ⟨-, hp⟩
      simp only [Bool.and_eq_true, beq_iff_eq] at hp
      exact ⟨hp.1, hp.2⟩
  · intro p hmem hactive hcity htitle hdesc hlen
    simp only [propertiesService.searchProperties, backendResp,
      searchPropertiesRows]
    have hfl : (db.filter (fun p => p.status == "active" &&
        (containsCI p.title q || containsCI p.description q ||
          containsCI p.city q))).length ≤ 20 :=
      le_trans (List.length_filter_le _ db) hlen
    rw [List.take_of_length_le hfl]
    refine List.mem_filter.mpr ⟨hmem, ?_⟩
    simp [hactive, hcity]

/-- C4 witness: searching for "par" in the sample table returns the
Paris row, whose city contains "par" case-insensitively while its title
and description do not. -/
theorem c4_search_witness :
    pParis ∈ propertiesService.searchProperties "par" sampleDb none :=
  (c4_search "par" sampleDb).2 pParis (by decide) (by decide) (by decide)
    (by decide) (by decide) (by decide)

/-- With pairwise-distinct ids (the PRIMARY KEY invariant of the
`properties` table), filtering on the id of a member row yields exactly
that row. -/
theorem filter_id_unique (db : List Property) (p : Property) (i : String)
    (hpair : db.Pairwise (fun a b => a.id ≠ b.id)) (hmem : p ∈ db)
    (hid : p.id = i) :
    db.filter (fun q => q.id == i) = [p] := by
  induction db with
  | nil => cases hmem
  | cons a t ih =>
    rcases List.pairwise_cons.mp hpair with ⟨ha, ht⟩
    rcases List.mem_cons.mp hmem with h | h
    · subst h
      rw [List.filter_cons_of_pos (by simp [hid])]
      have hrest : t.filter (fun q => q.id == i) = [] := by
        rw [List.filter_eq_nil_iff]
        intro q hq
        simp only [beq_iff_eq]
        intro hqi
        exact (ha q hq) (by rw [hid, hqi])
      rw [hrest]
    · have hai : a.id ≠ i := by
        have hne2 := ha p h
        rw [hid] at hne2
        exact hne2
      rw [List.filter_cons_of_neg (by simp [hai])]
      exact ih ht h

/-- C5: `getPropertyById` returns `none` on any backend error and when
no row has the requested id; when a row with the id exists and ids are
pairwise distinct (the PRIMARY KEY invariant), it returns exactly that
row. -/
theorem c5_get_property_by_id (i : String) (db : List Property) :
    (∀ e, propertiesService.getPropertyById i db (some e) = none) ∧
    ((∀ p ∈ db, p.id ≠ i) →
      propertiesService.getPropertyById i db none = none) ∧
    (∀ p, db.Pairwise (fun a b => a.id ≠ b.id) → p ∈ db → p.id = i →
      propertiesService.getPropertyById i db none = some p) := by
  refine ⟨?_, ?_, ?_⟩
  · intro e
    simp [propertiesService.getPropertyById]
  · intro hnone
    have hfl : db.filter (fun q => q.id == i) = [] := by
      rw [List.filter_eq_nil_iff]
      intro q hq
      simp only [beq_iff_eq]
      exact hnone q hq
    simp [propertiesService.getPropertyById, getPropertyByIdRows, hfl]
  · intro p hpair hmem hid
    have hfl := filter_id_unique db p i hpair hmem hid
    simp [propertiesService.getPropertyById, getPropertyByIdRows, hfl]

/-- C5 witness: in the sample table, id "id-1" returns the Paris row and
the absent id "id-9" returns `none`. -/
theorem c5_get_property_by_id_witness :
    propertiesService.getPropertyById "id-1" sampleDb none = some pParis ∧
    propertiesService.getPropertyById "id-9" sampleDb none = none :=
  ⟨(c5_get_property_by_id "id-1" sampleDb).2.2 pParis (by decide) (by decide)
      (by decide),
   (c5_get_property_by_id "id-9" sampleDb).2.1 (by decide)⟩

/-- C6: every row returned by `getProperties` is active and satisfies
each supplied (truthy) filter field: city as a case-insensitive
substring, property type and listing type by equality, price within the
given bounds, bedrooms at least the given minimum, and the featured flag
when set. -/
theorem c6_get_properties (f : Filters) (db : List Property)
    (err : Option DbError) (p : Property)
    (hmem : p ∈ propertiesService.getProperties f db err) :
    p.status = "active" ∧
    (∀ c, f.city = some c → c ≠ "" → containsCI p.city c = true) ∧
    (∀ t, f.property_type = some t → t ≠ "" → p.property_type = t) ∧
    (∀ m, f.minPrice = some m → m ≠ 0 → m ≤ p.price) ∧
    (∀ m, f.maxPrice = some m → m ≠ 0 → p.price ≤ m) ∧
    (∀ b, f.bedrooms = some b → b ≠ 0 → b ≤ p.bedrooms) ∧
    (∀ l, f.listing_type = some l → l ≠ "" → p.listing_type = l) ∧
    (f.featured = some true → p.featured = true) := by
  cases err with
  | some e =>
    simp [propertiesService.getProperties, backendResp] at hmem
  | none =>
    simp only [propertiesService.getProperties, backendResp,
      getPropertiesRows] at hmem
    have h := mem_take_filter hmem
    rcases h with ⟨-, hp⟩
    simp only [matchesFilters, Bool.and_eq_true, beq_iff_eq] at hp
    rcases hp with ⟨hstatus, ⟨⟨⟨⟨⟨⟨h1, h2⟩, h3⟩, h4⟩, h5⟩, h6⟩, h7⟩⟩
    refine ⟨hstatus, ?_, ?_, ?_, ?_, ?_, ?_, ?_⟩
    · intro c hc hne
      rw [hc] at h1
      simp [truthyS, strVal, hne] at h1
      exact h1
    · intro t ht hne
      rw [ht] at h2
      simp [truthyS, strVal, hne] at h2
      exact h2
    · intro m hm hne
      rw [hm] at h3
      simp [truthyI, intVal, hne] at h3
      exact h3
    · intro m hm hne
      rw [hm] at h4
      simp [truthyI, intVal, hne] at h4
      exact h4
    · intro b hb hne
      rw [hb] at h5
      simp [truthyI, intVal, hne] at h5
      exact h5
    · intro l hl hne
      rw [hl] at h6
      simp [truthyS, strVal, hne] at h6
      exact h6
    · intro hf
      rw [hf] at h7
      simp [truthyB] at h7
      exact h7

/-- C6 witness: with the filter (city "ly", type "house", price in
[100, 600000], at least 3 bedrooms, listing "sale"), the Lyon row is
returned and the constraints extracted from `c6_get_properties` hold
for it. -/
theorem c6_get_properties_witness :
    pLyon.status = "active" ∧ containsCI pLyon.city "ly" = true ∧
    pLyon.property_type = "house" ∧ (100 : Int) ≤ pLyon.price ∧
    pLyon.price ≤ (600000 : Int) ∧ (3 : Int) ≤ pLyon.bedrooms ∧
    pLyon.listing_type = "sale" := by
  have h := c6_get_properties
    ⟨some "ly", some "house", some 100, some 600000, some 3, some "sale", none⟩
    sampleDb none pLyon (by decide)
  exact ⟨h.1, h.2.1 "ly" rfl (by decide), h.2.2.1 "house" rfl (by decide),
    h.2.2.2.1 100 rfl (by decide), h.2.2.2.2.1 600000 rfl (by decide),
    h.2.2.2.2.2.1 3 rfl (by decide), h.2.2.2.2.2.2.1 "sale" rfl (by decide)⟩

/-- Two filter objects whose constraint predicates agree row-by-row make
`getProperties` return the same result, on the success path and the
error path alike. -/
theorem getProperties_congr (f g : Filters) (db : List Property)
    (err : Option DbError)
    (h : ∀ p, matchesFilters f p = matchesFilters g p) :
    propertiesService.getProperties f db err =
      propertiesService.getProperties g db err := by
  have hfun : (fun p => p.status == "active" && matchesFilters f p) =
      (fun p : Property => p.status == "active" && matchesFilters g p) := by
    funext p
    rw [h p]
  cases err with
  | some e => simp [propertiesService.getProperties, backendResp]
  | none =>
    simp only [propertiesService.getProperties, backendResp,
      getPropertiesRows, hfun]

/-- C9: for every filter object — mixed truthy and falsy fields
included — each individually falsy field (absent, or present as `""`,
`0`, or `false`) adds no constraint: removing it from the filter object
leaves the result of `getProperties` unchanged; and when every field is
falsy the result coincides with the empty filter object and is exactly
the first 20 active rows, unrestricted. -/
theorem c9_falsy_field_no_constraint (f : Filters) (db : List Property)
    (err : Option DbError) :
    (truthyS f.city = false →
      propertiesService.getProperties f db err =
        propertiesService.getProperties { f with city := none } db err) ∧
    (truthyS f.property_type = false →
      propertiesService.getProperties f db err =
        propertiesService.getProperties { f with property_type := none } db err) ∧
    (truthyI f.minPrice = false →
      propertiesService.getProperties f db err =
        propertiesService.getProperties { f with minPrice := none } db err) ∧
    (truthyI f.maxPrice = false →
      propertiesService.getProperties f db err =
        propertiesService.getProperties { f with maxPrice := none } db err) ∧
    (truthyI f.bedrooms = false →
      propertiesService.getProperties f db err =
        propertiesService.getProperties { f with bedrooms := none } db err) ∧
    (truthyS f.listing_type = false →
      propertiesService.getProperties f db err =
        propertiesService.getProperties { f with listing_type := none } db err) ∧
    (truthyB f.featured = false →
      propertiesService.getProperties f db err =
        propertiesService.getProperties { f with featured := none } db err) ∧
    (truthyS f.city = false → truthyS f.property_type = false →
     truthyI f.minPrice = false → truthyI f.maxPrice = false →
     truthyI f.bedrooms = false → truthyS f.listing_type = false →
     truthyB f.featured = false →
      propertiesService.getProperties f db err =
        propertiesService.getProperties emptyFilters db err ∧
      propertiesService.getProperties f db none =
        (db.filter (fun p => p.status == "active")).take 20) := by
  refine ⟨?_, ?_, ?_, ?_, ?_, ?_, ?_, ?_⟩
  · intro h
    refine getProperties_congr f _ db err ?_
    intro p
    simp only [matchesFilters]
    rw [h]
    simp [truthyS, truthyI, truthyB]
  · intro h
    refine getProperties_congr f _ db err ?_
    intro p
    simp only [matchesFilters]
    rw [h]
    simp [truthyS, truthyI, truthyB]
  · intro h
    refine getProperties_congr f _ db err ?_
    intro p
    simp only [matchesFilters]
    rw [h]
    simp [truthyS, truthyI, truthyB]
  · intro h
    refine getProperties_congr f _ db err ?_
    intro p
    simp only [matchesFilters]
    rw [h]
    simp [truthyS, truthyI, truthyB]
  · intro h
    refine getProperties_congr f _ db err ?_
    intro p
    simp only [matchesFilters]
    rw [h]
    simp [truthyS, truthyI, truthyB]
  · intro h
    refine getProperties_congr f _ db err ?_
    intro p
    simp only [matchesFilters]
    rw [h]
    simp [truthyS, truthyI, truthyB]
  · intro h
    refine getProperties_congr f _ db err ?_
    intro p
    simp only [matchesFilters]
    rw [h]
    simp [truthyS, truthyI, truthyB]
  · intro h1 h2 h3 h4 h5 h6 h7
    have hall : ∀ p, matchesFilters f p = true := by
      intro p
      simp [matchesFilters, h1, h2, h3, h4, h5, h6, h7]
    have hfun : (fun p => p.status == "active" && matchesFilters f p) =
        (fun p : Property => p.status == "active") := by
      funext p
      rw [hall p]
      simp
    constructor
    · refine getProperties_congr f emptyFilters db err ?_
      intro p
      rw [hall p]
      simp [matchesFilters, emptyFilters, truthyS, truthyI, truthyB]
    · simp only [propertiesService.getProperties, backendResp,
        getPropertiesRows, hfun]

/-- C9 witness: on the mixed filter object (truthy city "ly" and
minimum price alongside falsy `bedrooms: 0` and `featured: false`),
dropping the falsy bedrooms or featured field leaves the result
unchanged; and the all-falsy filter object behaves exactly like the
empty one, returning the active rows unrestricted. -/
theorem c9_falsy_field_no_constraint_witness :
    propertiesService.getProperties fMixed sampleDb none =
      propertiesService.getProperties { fMixed with bedrooms := none }
        sampleDb none ∧
    propertiesService.getProperties fMixed sampleDb none =
      propertiesService.getProperties { fMixed with featured := none }
        sampleDb none ∧
    (propertiesService.getProperties falsyFilters sampleDb none =
      propertiesService.getProperties emptyFilters sampleDb none ∧
     propertiesService.getProperties falsyFilters sampleDb none =
      (sampleDb.filter (fun p => p.status == "active")).take 20) :=
  ⟨(c9_falsy_field_no_constraint fMixed sampleDb none).2.2.2.2.1 (by decide),
   (c9_falsy_field_no_constraint fMixed sampleDb none).2.2.2.2.2.2.1 (by decide),
   (c9_falsy_field_no_constraint falsyFilters sampleDb none).2.2.2.2.2.2.2
     (by decide) (by decide) (by decide) (by decide) (by decide) (by decide)
     (by decide)⟩

/-- A row returned by `getPropertyById` belongs to the table the backend
evaluated the request against. -/
theorem getPropertyById_mem {i : String} {db : List Property}
    {err : Option DbError} {p : Property}
    (h : propertiesService.getPropertyById i db err = some p) : p ∈ db := by
  cases err with
  | some e => simp [propertiesService.getPropertyById] at h
  | none =>
    rw [propertiesService.getPropertyById] at h
    unfold getPropertyByIdRows at h
    rcases hlist : db.filter (fun q => q.id == i) with _ | ⟨a, _ | ⟨b, t⟩⟩
    · rw [hlist] at h
      simp at h
    · rw [hlist] at h
      simp at h
      subst h
      have : a ∈ db.filter (fun q => q.id == i) := by
        rw [hlist]
        exact List.mem_singleton.mpr rfl
      exact (List.mem_filter.mp this).1
    · rw [hlist] at h
      simp at h

/-- C10: the `getPropertyById` request carries no status constraint — a
non-active row is returned when the raw table is consulted — whereas
`getProperties`, `searchProperties` and `getFeaturedProperties` all
restrict their requests to active rows; visibility of non-active rows
through `getPropertyById` is therefore decided by the backend
row-level-security policy alone, and under the public-read policy
(`rlsPublicRows`) only active rows can come back. -/
theorem c10_no_status_constraint :
    (∃ db i p, p.status ≠ "active" ∧
      propertiesService.getPropertyById i db none = some p) ∧
    (∀ f db err p, p ∈ propertiesService.getProperties f db err →
      p.status = "active") ∧
    (∀ q db err p, p ∈ propertiesService.searchProperties q db err →
      p.status = "active") ∧
    (∀ db err p, p ∈ propertiesService.getFeaturedProperties db err →
      p.status = "active") ∧
    (∀ i db p,
      propertiesService.getPropertyById i (rlsPublicRows db) none = some p →
      p.status = "active") := by
  refine ⟨?_, ?_, ?_, ?_, ?_⟩
  · exact ⟨[pSoldRome], "id-3", pSoldRome, by decide, by decide⟩
  · intro f db err p hmem
    cases err with
    | some e => simp [propertiesService.getProperties, backendResp] at hmem
    | none =>
      simp only [propertiesService.getProperties, backendResp,
        getPropertiesRows] at hmem
      have h := mem_take_filter hmem
      rcases h with ⟨-, hp⟩
      simp only [Bool.and_eq_true, beq_iff_eq] at hp
      exact hp.1
  · intro q db err p hmem
    cases err with
    | some e => simp [propertiesService.searchProperties, backendResp] at hmem
    | none =>
      simp only [propertiesService.searchProperties, backendResp,
        searchPropertiesRows] at hmem
      have h := mem_take_filter hmem
      rcases h with ⟨-, hp⟩
      simp only [Bool.and_eq_true, beq_iff_eq] at hp
      exact hp.1
  · intro db err p hmem
    cases err with
    | some e =>
      simp [propertiesService.getFeaturedProperties, backendResp] at hmem
    | none =>
      simp only [propertiesService.getFeaturedProperties, backendResp,
        getFeaturedRows] at hmem
      have h := mem_take_filter hmem
      rcases h with ⟨-, hp⟩
      simp only [Bool.and_eq_true, beq_iff_eq] at hp
      exact hp.1
  · intro i db p h
    have hm := getPropertyById_mem h
    unfold rlsPublicRows at hm
    have h2 := List.mem_filter.mp hm
    exact beq_iff_eq.mp h2.2

/-- C10 witness: in the sample table, the Lyon row comes back from
`getProperties` and the Paris row from `getPropertyById` over the
policy-visible rows; both are active. -/
theorem c10_no_status_constraint_witness :
    pLyon.status = "active" ∧ pParis.status = "active" :=
  ⟨c10_no_status_constraint.2.1 emptyFilters sampleDb none pLyon (by decide),
   c10_no_status_constraint.2.2.2.2 "id-1" sampleDb pParis (by decide)⟩
